import Mathlib

/-!
Verification of the hex-editor provider core (`src/hexEditorProvider.ts`):
the request/response message broker, the view registry, the document model
and the editor controller's message handlers, embedded shallowly as pure
Lean functions with explicit state passing.
-/

namespace HexEditor

/-- Message bodies exchanged over the view channel. The source is loosely
typed (`any`); we enumerate the shapes actually constructed or consumed by
the provider: the empty body `{}`, the `init` body
`{fileSize, value, html?}`, and the `getFileData` response `{data}`. -/
inductive Body where
  | empty : Body
  | initBody (fileSize : Nat) (value : List Nat) (html : Option String) : Body
  | response (data : List Nat) : Body
deriving DecidableEq, Repr

/-- A message on the view channel: `{type, requestId?, body}`. A
notification has `requestId = none`; a request or response carries
`some id`. -/
structure Message where
  type : String
  requestId : Option Nat
  body : Body
deriving DecidableEq, Repr

/-- Observable side effects of the provider: `console.log`,
`vscode.window.showInformationMessage`, and
`panel.webview.postMessage` (a view handle is a `Nat`). -/
inductive Effect where
  | consoleLog (m : Message) : Effect
  | showInformationMessage (s : String) : Effect
  | post (panel : Nat) (m : Message) : Effect
deriving DecidableEq, Repr

/-- The broker state owned by one `HexEditorProvider` instance:
`_requestId` (the next id to allocate, initialised to 1) and the
`_callbacks` map, modelled as the list of pending request ids in insertion
order; each pending id's resolver would resolve that request's promise.
`resolvedWith` records which request promises have been resolved and with
what payload (observable promise state). -/
structure BrokerState where
  requestId : Nat
  callbacks : List Nat
  resolvedWith : List (Nat × Body)
deriving DecidableEq, Repr

/-- The provider's initial broker state: `private _requestId = 1` and an
empty `_callbacks` map; no promise has been resolved. -/
def BrokerState.init : BrokerState := BrokerState.mk 1 [] []

/-- `postMessage(panel, type, body)`: posts `{ type, body }` to the view —
a one-way notification, no `requestId`. -/
def postMessage (panel : Nat) (type : String) (body : Body) : Effect :=
  Effect.post panel (Message.mk type none body)

/-- `postMessageWithResponse(panel, type, body)`: allocates
`requestId = this._requestId++`, records the pending resolver in
`_callbacks`, posts `{ type, requestId, body }`, and returns the promise
(identified here by its request id) immediately. -/
def postMessageWithResponse (st : BrokerState) (panel : Nat) (type : String)
    (body : Body) : BrokerState × Effect × Nat :=
  (BrokerState.mk (st.requestId + 1) (st.callbacks ++ [st.requestId]) st.resolvedWith,
   Effect.post panel (Message.mk type (some st.requestId) body),
   st.requestId)

/-- Modelled from the spec: `HexDocument` (src/hexDocument.ts is not part
of the visible source; only its callers are). §3/§4.1: a document owns an
immutable `filesize`, a byte buffer `documentData` (`content`), and the
`openedFully` flag; `fileBytes` stands for the opaque external byte source
(the full content of the underlying resource). -/
structure HexDocument where
  uri : String
  fileBytes : List Nat
  filesize : Nat
  documentData : List Nat
  openedFully : Bool
deriving DecidableEq, Repr

/-- Modelled from the spec: `HexDocument.create` (§4.1) reads up to the
safe-load threshold of bytes; `filesize` is the resource's true total
size; `openedFully` starts true exactly when no truncation occurred. -/
def HexDocument.create (uri : String) (fileBytes : List Nat) (threshold : Nat) :
    HexDocument :=
  HexDocument.mk uri fileBytes fileBytes.length (fileBytes.take threshold)
    (decide (fileBytes.length ≤ threshold))

/-- Modelled from the spec: `HexDocument.openAnyways()` (§4.1) re-invokes
the byte source without the threshold, replacing `content` with the full
byte sequence and setting `openedFully = true`. -/
def HexDocument.openAnyways (d : HexDocument) : HexDocument :=
  HexDocument.mk d.uri d.fileBytes d.filesize d.fileBytes true

/-- Modelled from the spec: `WebviewCollection` (src/webViewCollection.ts
is not part of the visible source). §4.2: `entries` holds the
(locator, view) pairings in registration order. -/
structure WebviewCollection where
  entries : List (String × Nat)
deriving DecidableEq, Repr

/-- Modelled from the spec: `WebviewCollection.add` registers the pairing
(and subscribes to the view's disposal signal, modelled by
`WebviewCollection.onViewDisposed`). -/
def WebviewCollection.add (c : WebviewCollection) (uri : String) (panel : Nat) :
    WebviewCollection :=
  WebviewCollection.mk (c.entries ++ [(uri, panel)])

/-- Modelled from the spec: `WebviewCollection.get` returns the live view
handles for a locator, in registration order. -/
def WebviewCollection.get (c : WebviewCollection) (uri : String) : List Nat :=
  (c.entries.filter (fun e => e.1 == uri)).map (fun e => e.2)

/-- Modelled from the spec: the pairing self-removes when the view's own
disposal signal fires. -/
def WebviewCollection.onViewDisposed (c : WebviewCollection) (panel : Nat) :
    WebviewCollection :=
  WebviewCollection.mk (c.entries.filter (fun e => e.2 ≠ panel))

/-- `onMessage(document, message)` from the source: logs the message, then
`switch (message.type)` with a single case `edit`, which shows the
read-only notice and returns. It touches neither the document nor the
`_callbacks` map. -/
def onMessage (doc : HexDocument) (st : BrokerState) (m : Message) :
    HexDocument × BrokerState × List Effect :=
  (doc, st,
    Effect.consoleLog m ::
      (if m.type = "edit"
        then [Effect.showInformationMessage "This editor is currently readonly."]
        else []))

/-- `getBodyHTML()` from the source: the static body markup pushed with a
fully loaded `init`. -/
def getBodyHTML : String :=
  "<div class=\"column\" id=\"data-inspector\"> ... Data Inspector ... </div>" ++
  "<div class=\"column left\" id=\"hexaddr\"><div class=\"header\">Memory Offset </div></div>" ++
  "<div class=\"column middle\" id=\"hexbody\"> ... </div>" ++
  "<div class=\"column right\" id=\"ascii\"><div class=\"header\">Decoded Text</div></div>"

/-- The `ready` listener registered in `resolveCustomEditor`: on
`e.type === 'ready'`, posts `init` with
`{fileSize, value: documentData, html: documentData.length === filesize ? getBodyHTML() : undefined}`. -/
def onReadyMessage (doc : HexDocument) (panel : Nat) (e : Message) : List Effect :=
  if e.type = "ready" then
    [postMessage panel "init"
      (Body.initBody doc.filesize doc.documentData
        (if doc.documentData.length = doc.filesize then some getBodyHTML else none))]
  else []

/-- The `open-anyways` listener registered in `resolveCustomEditor`: on
`e.type == 'open-anyways'`, awaits `document.openAnyways()`, then posts
`init` with the (mutated) document's data and `html: this.getBodyHTML()`
unconditionally. -/
def onOpenAnywaysMessage (doc : HexDocument) (panel : Nat) (e : Message) :
    HexDocument × List Effect :=
  if e.type = "open-anyways" then
    (doc.openAnyways,
     [postMessage panel "init"
       (Body.initBody doc.openAnyways.filesize doc.openAnyways.documentData
         (some getBodyHTML))])
  else (doc, [])

/-- The `getFileData` data provider installed in `openCustomDocument`:
takes `webviewsForDocument = Array.from(this.webviews.get(document.uri))`;
throws `'Could not find webview to save for'` when empty (the async
function delivers it to the caller as a rejected promise, modelled by
`Except.error`); otherwise issues `postMessageWithResponse` to
`webviewsForDocument[0]`. -/
def getFileData (st : BrokerState) (webviews : WebviewCollection) (uri : String) :
    Except String (BrokerState × Effect × Nat) :=
  match webviews.get uri with
  | [] => Except.error "Could not find webview to save for"
  | panel :: _ => Except.ok (postMessageWithResponse st panel "getFileData" Body.empty)

/-- The continuation of `getFileData` on a response body:
`new Uint8Array(response.data)` — each element reduced modulo 256. Any
body that is not a `getFileData` response carries no `data` field. -/
def getFileDataResult (response : Body) : Option (List Nat) :=
  match response with
  | Body.response data => some (data.map (fun b => b % 256))
  | _ => none

/-- The full incoming-message path of a (document, view) pair:
`resolveCustomEditor` registers three `onDidReceiveMessage` listeners in
order — the `onMessage` dispatch (line 64), the `ready` listener (line 67)
and the `open-anyways` listener (line 77) — and every incoming message
runs through all three. -/
def onWebviewMessage (doc : HexDocument) (st : BrokerState) (panel : Nat)
    (m : Message) : HexDocument × BrokerState × List Effect :=
  let a := onMessage doc st m
  let b := onReadyMessage doc panel m
  let c := onOpenAnywaysMessage doc panel m
  (c.1, a.2.1, a.2.2 ++ b ++ c.2)

/-- An operation on one provider instance's broker: either a call to
`postMessageWithResponse` or an incoming message dispatched through the
registered listeners. -/
inductive BrokerOp where
  | request (panel : Nat) (type : String) (body : Body) : BrokerOp
  | incoming (doc : HexDocument) (panel : Nat) (m : Message) : BrokerOp

/-- Whether a broker operation is a `postMessageWithResponse` call. -/
def BrokerOp.isRequest : BrokerOp → Bool
  | BrokerOp.request _ _ _ => true
  | BrokerOp.incoming _ _ _ => false

/-- Runs a sequence of broker operations, returning the final state and
the request ids allocated by the `request` operations, in order. -/
def runOps : BrokerState → List BrokerOp → BrokerState × List Nat
  | st, [] => (st, [])
  | st, BrokerOp.request panel ty body :: rest =>
      let r := postMessageWithResponse st panel ty body
      let rec2 := runOps r.1 rest
      (rec2.1, r.2.2 :: rec2.2)
  | st, BrokerOp.incoming doc panel m :: rest =>
      runOps (onWebviewMessage doc st panel m).2.1 rest

/-- A sample document used as a concrete input in witnesses. -/
def sampleDoc : HexDocument := HexDocument.create "file:a.bin" [1, 2, 3] 1000000

/-- The broker state after one `postMessageWithResponse` call on a fresh
provider: it allocated request id 1. -/
def stAfterOneRequest : BrokerState :=
  (postMessageWithResponse BrokerState.init 0 "getFileData" Body.empty).1

/-- A response message bearing the request id allocated above. -/
def staleResponse : Message := Message.mk "response" (some 1) (Body.response [7])

/-! ## Helper lemmas -/

lemma runOps_callbacks (ops : List BrokerOp) (st : BrokerState) :
    (runOps st ops).1.callbacks = st.callbacks ++ (runOps st ops).2 ∧
    (runOps st ops).1.resolvedWith = st.resolvedWith := by
  induction ops generalizing st with
  | nil => simp [runOps]
  | cons op rest ih =>
    cases op with
    | request panel ty body =>
      have h := ih (postMessageWithResponse st panel ty body).1
      simp only [runOps, postMessageWithResponse] at h ⊢
      refine ⟨?_, h.2⟩
      rw [h.1]
      simp
    | incoming doc panel m =>
      have h := ih st
      simpa [runOps, onWebviewMessage, onMessage] using h

lemma runOps_ids (ops : List BrokerOp) (st : BrokerState) :
    (runOps st ops).2 = List.range' st.requestId (ops.countP BrokerOp.isRequest) := by
  induction ops generalizing st with
  | nil => simp [runOps]
  | cons op rest ih =>
    cases op with
    | request panel ty body =>
      simp only [runOps, postMessageWithResponse]
      rw [ih]
      simp [List.countP_cons, BrokerOp.isRequest, List.range'_succ]
    | incoming doc panel m =>
      simp only [runOps, onWebviewMessage, onMessage]
      rw [ih]
      simp [List.countP_cons, BrokerOp.isRequest]

lemma pairwise_lt_range' (n s : Nat) : List.Pairwise (· < ·) (List.range' s n) := by
  induction n generalizing s with
  | zero => simp
  | succ k ih =>
    rw [List.range'_succ]
    refine List.Pairwise.cons (fun b hb => ?_) (ih (s + 1))
    have := List.mem_range'_1.mp hb
    omega

/-! ## Claims -/

/-- C1: evaluating the code at the failing input. After one request has
allocated id 1 and recorded its pending entry, delivering a response
bearing `requestId = 1` through the registered message listeners does NOT
resolve the pending promise and does NOT remove the entry: the dispatch
only logs the message and leaves the broker state unchanged (the source's
`onMessage` never consults the `_callbacks` map). -/
theorem matching_response_is_not_dispatched :
    stAfterOneRequest.callbacks = [1] ∧
    onWebviewMessage sampleDoc stAfterOneRequest 0 staleResponse =
      (sampleDoc, stAfterOneRequest, [Effect.consoleLog staleResponse]) ∧
    stAfterOneRequest.resolvedWith = [] := by
  refine ⟨rfl, ?_, rfl⟩
  rfl

/-- C2 (counterexample): the claim says a pending entry is destroyed when
a response bearing the matching id is observed; at the concrete input —
request id 1 pending, response with `requestId = 1` delivered — the entry
for id 1 is still in the pending map afterwards. -/
theorem pending_entry_survives_matching_response :
    1 ∈ (onWebviewMessage sampleDoc stAfterOneRequest 0 staleResponse).2.1.callbacks := by
  decide

/-- C2 (amended): a pending-request entry is created when a request is
sent and is never destroyed by any path — not even by a response bearing
the matching id — so after any sequence of requests and incoming messages
the pending map holds exactly the ids ever allocated, and no pending
promise is ever resolved or rejected. -/
theorem pending_entries_never_removed_nor_resolved (ops : List BrokerOp) :
    (runOps BrokerState.init ops).1.callbacks = (runOps BrokerState.init ops).2 ∧
    (runOps BrokerState.init ops).1.resolvedWith = [] := by
  have h := runOps_callbacks ops BrokerState.init
  simpa [BrokerState.init] using h

/-- C3: on a `ready` message the controller sends exactly one `init`
message whose body carries `fileSize = document.filesize` and
`value = document.documentData`, with `html` present if and only if
`documentData.length = filesize`; no state changes. -/
theorem ready_sends_init_with_conditional_html (doc : HexDocument)
    (st : BrokerState) (panel : Nat) (e : Message) (h : e.type = "ready") :
    onWebviewMessage doc st panel e =
      (doc, st,
       [Effect.consoleLog e,
        Effect.post panel (Message.mk "init" none
          (Body.initBody doc.filesize doc.documentData
            (if doc.documentData.length = doc.filesize then some getBodyHTML
             else none)))]) ∧
    ((if doc.documentData.length = doc.filesize then some getBodyHTML
      else none).isSome ↔ doc.documentData.length = doc.filesize) := by
  constructor
  · simp [onWebviewMessage, onMessage, onReadyMessage, onOpenAnywaysMessage,
      postMessage, h]
  · by_cases hl : doc.documentData.length = doc.filesize <;> simp [hl]

/-- C3 witness: the theorem applied to the sample document (fully loaded)
and a concrete `ready` message. -/
theorem ready_sends_init_with_conditional_html_witness :
    (Message.mk "ready" none Body.empty).type = "ready" ∧
    (onWebviewMessage sampleDoc BrokerState.init 7 (Message.mk "ready" none Body.empty) =
      (sampleDoc, BrokerState.init,
       [Effect.consoleLog (Message.mk "ready" none Body.empty),
        Effect.post 7 (Message.mk "init" none
          (Body.initBody sampleDoc.filesize sampleDoc.documentData
            (if sampleDoc.documentData.length = sampleDoc.filesize then some getBodyHTML
             else none)))]) ∧
     ((if sampleDoc.documentData.length = sampleDoc.filesize then some getBodyHTML
       else none).isSome ↔ sampleDoc.documentData.length = sampleDoc.filesize)) :=
  ⟨rfl, ready_sends_init_with_conditional_html sampleDoc BrokerState.init 7
    (Message.mk "ready" none Body.empty) rfl⟩

/-- A document whose file exceeds the safe-load threshold, used as a
concrete input. -/
def largeDoc : HexDocument := HexDocument.create "file:big.bin" [10, 20, 30, 40, 50] 2

/-- C4: on an `open-anyways` message the controller first applies
`openAnyways()` (content becomes the full byte sequence, `openedFully`
becomes true) and then sends a second `init` carrying the now-complete
content with `html` unconditionally present. -/
theorem open_anyways_reloads_then_sends_full_init (doc : HexDocument)
    (st : BrokerState) (panel : Nat) (e : Message)
    (h : e.type = "open-anyways") :
    onWebviewMessage doc st panel e =
      (doc.openAnyways, st,
       [Effect.consoleLog e,
        Effect.post panel (Message.mk "init" none
          (Body.initBody doc.filesize doc.fileBytes (some getBodyHTML)))]) ∧
    doc.openAnyways.documentData = doc.fileBytes ∧
    doc.openAnyways.openedFully = true := by
  refine ⟨?_, rfl, rfl⟩
  simp [onWebviewMessage, onMessage, onReadyMessage, onOpenAnywaysMessage,
    postMessage, HexDocument.openAnyways, h]

/-- C4 witness: the theorem applied to a partially loaded document and a
concrete `open-anyways` message. -/
theorem open_anyways_reloads_then_sends_full_init_witness :
    (Message.mk "open-anyways" none Body.empty).type = "open-anyways" ∧
    (onWebviewMessage largeDoc BrokerState.init 7 (Message.mk "open-anyways" none Body.empty) =
      (largeDoc.openAnyways, BrokerState.init,
       [Effect.consoleLog (Message.mk "open-anyways" none Body.empty),
        Effect.post 7 (Message.mk "init" none
          (Body.initBody largeDoc.filesize largeDoc.fileBytes (some getBodyHTML)))]) ∧
     largeDoc.openAnyways.documentData = largeDoc.fileBytes ∧
     largeDoc.openAnyways.openedFully = true) :=
  ⟨rfl, open_anyways_reloads_then_sends_full_init largeDoc BrokerState.init 7
    (Message.mk "open-anyways" none Body.empty) rfl⟩

/-- C5: the sequence of request ids allocated by successive
`postMessageWithResponse` calls on one provider instance, under any
interleaving with incoming messages, is exactly `1, 2, 3, …` — strictly
increasing, starting at 1, never reusing an id. -/
theorem request_ids_strictly_increasing_from_one (ops : List BrokerOp) :
    (runOps BrokerState.init ops).2 =
      List.range' 1 (ops.countP BrokerOp.isRequest) ∧
    List.Pairwise (· < ·) (runOps BrokerState.init ops).2 := by
  have h := runOps_ids ops BrokerState.init
  exact ⟨h, h ▸ pairwise_lt_range' _ _⟩

/-- C6: the `getFileData` data provider, called when zero views are
associated with the document, fails with the explicit
`Could not find webview to save for` error delivered to the caller
(`Except.error`, the model of the async function's rejected promise); it
does not crash. -/
theorem getFileData_no_view_errors (st : BrokerState)
    (webviews : WebviewCollection) (uri : String)
    (h : webviews.get uri = []) :
    getFileData st webviews uri =
      Except.error "Could not find webview to save for" := by
  simp [getFileData, h]

/-- C6 witness: the theorem applied to an empty view registry. -/
theorem getFileData_no_view_errors_witness :
    (WebviewCollection.mk []).get "file:a.bin" = [] ∧
    getFileData BrokerState.init (WebviewCollection.mk []) "file:a.bin" =
      Except.error "Could not find webview to save for" :=
  ⟨rfl, getFileData_no_view_errors BrokerState.init (WebviewCollection.mk [])
    "file:a.bin" rfl⟩

/-- C7: an `edit` message, with any payload, produces exactly the console
log and the user-visible read-only notice: the document and the broker
state are unchanged, nothing is posted and no error is raised. -/
theorem edit_shows_readonly_notice_only (doc : HexDocument)
    (st : BrokerState) (panel : Nat) (m : Message) (h : m.type = "edit") :
    onWebviewMessage doc st panel m =
      (doc, st,
       [Effect.consoleLog m,
        Effect.showInformationMessage "This editor is currently readonly."]) := by
  simp [onWebviewMessage, onMessage, onReadyMessage, onOpenAnywaysMessage, h]

/-- C7 witness: the theorem applied to a concrete `edit` message with a
nonempty payload. -/
theorem edit_shows_readonly_notice_only_witness :
    (Message.mk "edit" none (Body.response [1])).type = "edit" ∧
    onWebviewMessage sampleDoc BrokerState.init 7 (Message.mk "edit" none (Body.response [1])) =
      (sampleDoc, BrokerState.init,
       [Effect.consoleLog (Message.mk "edit" none (Body.response [1])),
        Effect.showInformationMessage "This editor is currently readonly."]) :=
  ⟨rfl, edit_shows_readonly_notice_only sampleDoc BrokerState.init 7
    (Message.mk "edit" none (Body.response [1])) rfl⟩

/-- C8: `postMessageWithResponse` posts exactly
`{type, requestId, body}`, returns the promise for the allocated id with
the pending resolver already recorded in the returned state, and
`postMessage` posts exactly `{type, body}` with no `requestId`. -/
theorem request_and_notification_wire_format (st : BrokerState)
    (panel : Nat) (ty : String) (body : Body) :
    (postMessageWithResponse st panel ty body).2.1 =
      Effect.post panel (Message.mk ty (some st.requestId) body) ∧
    (postMessageWithResponse st panel ty body).2.2 = st.requestId ∧
    st.requestId ∈ (postMessageWithResponse st panel ty body).1.callbacks ∧
    postMessage panel ty body = Effect.post panel (Message.mk ty none body) := by
  refine ⟨rfl, rfl, ?_, rfl⟩
  simp [postMessageWithResponse]

/-- C9: registering a second view for the same document identity while a
first is registered leaves both retrievable, in registration order. -/
theorem two_views_same_document_both_registered (c : WebviewCollection)
    (uri : String) (p1 p2 : Nat) :
    ((c.add uri p1).add uri p2).get uri = c.get uri ++ [p1, p2] ∧
    p1 ∈ ((c.add uri p1).add uri p2).get uri ∧
    p2 ∈ ((c.add uri p1).add uri p2).get uri := by
  have h : ((c.add uri p1).add uri p2).get uri = c.get uri ++ [p1, p2] := by
    simp [WebviewCollection.get, WebviewCollection.add, List.filter_append]
  exact ⟨h, by simp [h], by simp [h]⟩

/-- C10: whenever at least one view is registered for the document's uri,
`getFileData` issues its request to exactly the first view in
registration order (index 0), whatever the others are, and the bytes it
returns are the `data` field of that single request's response. -/
theorem getFileData_consults_first_view (st : BrokerState)
    (webviews : WebviewCollection) (uri : String) (panel : Nat)
    (rest : List Nat) (h : webviews.get uri = panel :: rest) :
    getFileData st webviews uri =
      Except.ok (postMessageWithResponse st panel "getFileData" Body.empty) ∧
    ∀ data : List Nat,
      getFileDataResult (Body.response data) =
        some (data.map (fun b => b % 256)) := by
  refine ⟨?_, fun data => rfl⟩
  simp [getFileData, h]

/-- A registry holding two views for the same document, used as a
concrete input. -/
def twoViewRegistry : WebviewCollection :=
  ((WebviewCollection.mk []).add "file:a.bin" 5).add "file:a.bin" 9

/-- C10 witness: the theorem applied to a registry holding two views; the
request goes to view 5, the first registered. -/
theorem getFileData_consults_first_view_witness :
    twoViewRegistry.get "file:a.bin" = 5 :: [9] ∧
    (getFileData BrokerState.init twoViewRegistry "file:a.bin" =
      Except.ok (postMessageWithResponse BrokerState.init 5 "getFileData" Body.empty) ∧
     ∀ data : List Nat,
       getFileDataResult (Body.response data) =
         some (data.map (fun b => b % 256))) :=
  ⟨rfl, getFileData_consults_first_view BrokerState.init twoViewRegistry
    "file:a.bin" 5 [9] rfl⟩

end HexEditor
